import Mathlib

/-!
The capture-and-report pipeline of alerty-go.

Shallow embedding of `pkg/alerty/alerty.go`.

The package keeps two package-level variables (`alertyTraceProvider`,
`alertyServiceConfig`) and registers its tracer provider with the process-wide
OpenTelemetry registry.  All of this is made explicit in `State`, and every
exported function of the package becomes a function on `State`.

The collaborators that live outside the package are modelled at their interface:

* the OpenTelemetry SDK (`TracerProvider`, batch span processors, spans),
* `github.com/pkg/errors` (`errors.New`, `errors.WithStack`, `StackTrace`),
* `net/url`, the OTLP and stdout exporters constructors, whose outcomes are
  inputs of the model (`Env`).

Omitted on purpose: timestamps, trace and span identifiers, the capacity of the
batch queue, and the background delivery goroutine.  A span handed to a batch
processor is *submitted* (it sits in `queue`); `Shutdown` drains the queue.
-/

namespace Alerty

/-! ## Data model -/

/-- The constant `DefaultAlertyIngestURL`. -/
def DefaultAlertyIngestURL : String := "https://ingest.alerty.ai"

/-- The constant `AlertyOrganizationIDKey`. -/
def AlertyOrganizationIDKey : String := "alerty.organizationId"

/-- The struct `AlertyServiceConfig`. -/
structure AlertyServiceConfig where
  OrganizationID : String
  Name : String
  Version : String
  Environment : String
  IngestURL : String
  Debug : Bool
  deriving DecidableEq, Repr

/-- A resolved `errors.Frame`: function name, file and line. -/
structure Frame where
  name : String
  file : String
  line : Nat
  deriving DecidableEq, Repr

/-- A non-nil Go `error` value.  `msg` is the result of `Error()`, `typeName` is the
dynamic type as the SDK prints it, and `stackTrace` is `some st` exactly when the
dynamic type has the method `StackTrace() errors.StackTrace` (the interface
`stackTracer` of the package), in which case the method returns `st`. -/
structure GoError where
  typeName : String
  msg : String
  stackTrace : Option (List Frame)
  deriving DecidableEq, Repr

/-- A non-nil Go value of type `interface{}`, seen through the type switch of
`CapturePanic`: dynamic type `string`, a dynamic type implementing `error`, or any
other dynamic type (only its name is kept). -/
inductive Dyn where
  | str (x : String)
  | err (x : GoError)
  | other (typeName : String)
  deriving DecidableEq, Repr

/-- A Go value of type `interface{}`; `none` is the nil interface. -/
abbrev Value := Option Dyn

/-- The status codes of `go.opentelemetry.io/otel/codes`, with their numeric order
`Unset < Error < Ok`. -/
inductive Code where
  | Unset
  | Error
  | Ok
  deriving DecidableEq, Repr

/-- Numeric value of a status code. -/
def Code.toNat : Code → Nat
  | .Unset => 0
  | .Error => 1
  | .Ok => 2

/-- Span status: code and description. -/
structure Status where
  code : Code
  description : String
  deriving DecidableEq, Repr

/-- A span event: a name and its attributes, in the order they were added. -/
structure Event where
  name : String
  attributes : List (String × String)
  deriving DecidableEq, Repr

/-- What is recorded on a span. -/
structure SpanData where
  name : String
  events : List Event
  status : Status
  ended : Bool
  deriving DecidableEq, Repr

/-- The two exporters `Start` can construct. -/
inductive SpanExporter where
  | otlp (endpointURL : String)
  | stdout
  deriving DecidableEq, Repr

/-- A batch span processor (`sdktrace.WithBatcher`): the spans submitted and not
yet handed to the exporter, and the spans handed to the exporter. -/
structure BatchSpanProcessor where
  exporter : SpanExporter
  queue : List SpanData
  exported : List SpanData
  deriving DecidableEq, Repr

/-- An SDK tracer provider. -/
structure TracerProvider where
  resource : List (String × String)
  processors : List BatchSpanProcessor
  isShutdown : Bool
  deriving DecidableEq, Repr

/-- Calls made to the collaborators, in program order (what a mock would record). -/
inductive Call where
  | urlParse (rawURL : String)
  | otlpNew (endpointURL : String)
  | resourceNew
  | stdoutNew
  | tracerStart (spanName : String)
  | shutdown (provider : Nat)
  deriving DecidableEq, Repr

/-- Process state.  `heap` holds the tracer providers allocated so far; a pointer is
an index into it.  `otelTracerProvider` is the provider registered by
`otel.SetTracerProvider` (`none`: the default no-op provider).  `log` is the output
of the standard logger. -/
structure State where
  heap : List TracerProvider
  otelTracerProvider : Option Nat
  alertyTraceProvider : Option Nat
  alertyServiceConfig : Option AlertyServiceConfig
  log : List String
  calls : List Call
  deriving DecidableEq, Repr

/-- State of a process in which no function of the package has run. -/
def State.init : State :=
  { heap := [], otelTracerProvider := none, alertyTraceProvider := none,
    alertyServiceConfig := none, log := [], calls := [] }

/-- Inputs that come from outside the package.

* `urlParse raw` is `url.Parse raw` followed by `String()` on the result.
* `otlpNew`, `resourceNew`, `stdoutNew`: the error returned by the constructor
  (`none` when it succeeds).
* `callerStack`: the frames of the callers of the package function being run.
* `siteStack`: the text the SDK records for `trace.WithStackTrace(true)`, that is
  the stack of the goroutine at the `RecordError` call.
* `shutdownError`: the error returned by shutting the span processors down.
* `srcFile`: the path of `alerty.go` as compiled. -/
structure Env where
  urlParse : String → Except String String
  otlpNew : String → Option String
  resourceNew : List (String × String) → Option String
  stdoutNew : Option String
  callerStack : List Frame
  siteStack : String
  shutdownError : Option String
  srcFile : String

/-! ## `github.com/pkg/errors` -/

/-- The function `callers` of pkg/errors, called from line `line` of the package
function `fn`: at most 32 frames, innermost first. -/
def callers (env : Env) (fn : String) (line : Nat) : List Frame :=
  (({ name := fn, file := env.srcFile, line := line } : Frame) :: env.callerStack).take 32

/-- The function `errors.New`: a `*fundamental` holding the message and the stack
of the call; `*fundamental` has the method `StackTrace`. -/
def errorsNew (env : Env) (fn : String) (line : Nat) (message : String) : GoError :=
  { typeName := "*errors.fundamental", msg := message,
    stackTrace := some (callers env fn line) }

/-- The function `errors.WithStack` applied to an error with message `message`. -/
def errorsWithStack (env : Env) (fn : String) (line : Nat) (message : String) : GoError :=
  { typeName := "*errors.withStack", msg := message,
    stackTrace := some (callers env fn line) }

/-- Formatting of one frame with the verb `%+v`. -/
def Frame.format (f : Frame) : String :=
  f.name ++ "\n\t" ++ f.file ++ ":" ++ toString f.line

/-- Formatting of an `errors.StackTrace` with `fmt.Sprintf("%+v", st)`: every frame
on a line of its own, in order. -/
def formatStackTrace (st : List Frame) : String :=
  String.join (st.map (fun f => "\n" ++ f.format))

/-! ## OpenTelemetry SDK -/

/-- The options `trace.WithAttributes` and `trace.WithStackTrace`. -/
inductive EventOption where
  | withAttributes (attrs : List (String × String))
  | withStackTrace (b : Bool)
  deriving DecidableEq, Repr

/-- Attributes of an event configuration built from `opts`. -/
def eventAttributes (opts : List EventOption) : List (String × String) :=
  opts.foldl (fun acc o =>
    match o with
    | .withAttributes a => acc ++ a
    | .withStackTrace _ => acc) []

/-- Stack-trace flag of an event configuration built from `opts`. -/
def eventStackTrace (opts : List EventOption) : Bool :=
  opts.foldl (fun acc o =>
    match o with
    | .withAttributes _ => acc
    | .withStackTrace b => b) false

/-- A span handle: the no-op span, or a recording span of the provider at the
given pointer. -/
inductive Span where
  | noop
  | recording (provider : Nat) (data : SpanData)
  deriving DecidableEq, Repr

/-- The calls `otel.Tracer("alerty-go")` then `tracer.Start(ctx, name)`.  The
registered provider yields a recording span (the default sampler samples every
root span); the default provider and a provider that is shut down yield the
no-op span. -/
def tracerStart (s : State) (name : String) : Span :=
  match s.otelTracerProvider with
  | none => .noop
  | some i =>
    match s.heap[i]? with
    | none => .noop
    | some p =>
      if p.isShutdown then .noop
      else .recording i { name := name, events := [],
                          status := { code := .Unset, description := "" }, ended := false }

/-- The method `RecordError` for a non-nil error: the event `exception` with the
attributes of `opts`, then the type and the message of the error, then the stack
of the call when `opts` asks for it. -/
def Span.RecordError (env : Env) (sp : Span) (err : GoError) (opts : List EventOption) : Span :=
  match sp with
  | .noop => .noop
  | .recording i d =>
    if d.ended then .recording i d
    else
      let opts := opts ++ [.withAttributes
        [("exception.type", err.typeName), ("exception.message", err.msg)]]
      let opts :=
        if eventStackTrace opts then
          opts ++ [.withAttributes [("exception.stacktrace", env.siteStack)]]
        else opts
      .recording i { d with events := d.events ++
        [{ name := "exception", attributes := eventAttributes opts }] }

/-- The method `SetStatus`: a lower code never overrides a higher one, and the
description is kept for `Error` only. -/
def Span.SetStatus (sp : Span) (code : Code) (description : String) : Span :=
  match sp with
  | .noop => .noop
  | .recording i d =>
    if d.ended then .recording i d
    else if d.status.code.toNat > code.toNat then .recording i d
    else .recording i { d with status :=
      { code := code, description := if code = .Error then description else "" } }

/-- The method `OnEnd` of a batch span processor: the span joins the queue. -/
def BatchSpanProcessor.OnEnd (bp : BatchSpanProcessor) (d : SpanData) : BatchSpanProcessor :=
  { bp with queue := bp.queue ++ [d] }

/-- The method `Shutdown` of a batch span processor: the queue is drained to the
exporter. -/
def BatchSpanProcessor.Shutdown (bp : BatchSpanProcessor) : BatchSpanProcessor :=
  { bp with queue := [], exported := bp.exported ++ bp.queue }

/-- The method `End`: the span is marked ended and handed to every span processor
of its provider. -/
def Span.End (sp : Span) (s : State) : State :=
  match sp with
  | .noop => s
  | .recording i d =>
    if d.ended then s
    else
      match s.heap[i]? with
      | none => s
      | some p =>
        if p.isShutdown then s
        else
          let q : TracerProvider :=
            { p with processors := p.processors.map (fun bp => bp.OnEnd { d with ended := true }) }
          { s with heap := s.heap.set i q }

/-- The method `Shutdown` of a tracer provider.  A provider that is already shut
down returns nil at once; otherwise every span processor is shut down and the
error of that, if any, is returned. -/
def TracerProvider.Shutdown (env : Env) (p : TracerProvider) : TracerProvider × Option String :=
  if p.isShutdown then (p, none)
  else
    ({ p with processors := p.processors.map BatchSpanProcessor.Shutdown, isShutdown := true },
      env.shutdownError)

/-- The builtin `recover` called directly by a deferred function: it returns the
value of the panic in flight (nil when there is none) and stops the panic.  The
pair is (returned value, panic still in flight). -/
def goRecover (inflight : Value) : Value × Value :=
  (inflight, none)

/-! ## The package -/

/-- Qualified name of a function of the package, as it appears in a frame. -/
def pkgFn (name : String) : String :=
  "github.com/alerty-ai/alerty-go/pkg/alerty." ++ name

/-- The function `Start`.  Returns the new state and the returned error. -/
def Start (env : Env) (cfg : AlertyServiceConfig) (s : State) : State × Option GoError :=
  let s := { s with alertyServiceConfig := some cfg }
  let ingestURL := cfg.IngestURL
  let ingestURL := if ingestURL = "" then DefaultAlertyIngestURL else ingestURL
  let s := { s with calls := s.calls ++ [.urlParse ingestURL] }
  match env.urlParse ingestURL with
  | .error e => (s, some (errorsWithStack env (pkgFn "Start") 56 e))
  | .ok endpoint =>
    let s := { s with calls := s.calls ++ [.otlpNew endpoint] }
    match env.otlpNew endpoint with
    | some e => (s, some (errorsWithStack env (pkgFn "Start") 63 e))
    | none =>
      let otlpExporter := SpanExporter.otlp endpoint
      let attrs := [("service.name", cfg.Name), ("service.version", cfg.Version),
                    ("deployment.environment", cfg.Environment),
                    (AlertyOrganizationIDKey, cfg.OrganizationID)]
      let s := { s with calls := s.calls ++ [.resourceNew] }
      match env.resourceNew attrs with
      | some e => (s, some (errorsWithStack env (pkgFn "Start") 75 e))
      | none =>
        let opts : List BatchSpanProcessor :=
          [{ exporter := otlpExporter, queue := [], exported := [] }]
        let install (s : State) (opts : List BatchSpanProcessor) : State × Option GoError :=
          let traceProvider : TracerProvider :=
            { resource := attrs, processors := opts, isShutdown := false }
          let ptr := s.heap.length
          let s := { s with heap := s.heap ++ [traceProvider] }
          let s := { s with otelTracerProvider := some ptr }
          let s := { s with alertyTraceProvider := some ptr }
          (s, none)
        if cfg.Debug then
          let s := { s with calls := s.calls ++ [.stdoutNew] }
          match env.stdoutNew with
          | some e => (s, some (errorsWithStack env (pkgFn "Start") 89 e))
          | none =>
            install s (opts ++ [{ exporter := .stdout, queue := [], exported := [] }])
        else install s opts

/-- The function `CaptureError`; `none` is the nil error. -/
def CaptureError (env : Env) (err : Option GoError) (s : State) : State :=
  match err with
  | none => s
  | some e =>
    let span := tracerStart s "error"
    let s := { s with calls := s.calls ++ [.tracerStart "error"] }
    let opts : List EventOption := []
    let opts :=
      match e.stackTrace with
      | some st => opts ++ [.withAttributes [("exception.stacktrace", formatStackTrace st)]]
      | none => opts ++ [.withStackTrace true]
    let span := span.RecordError env e opts
    let span := span.SetStatus .Error e.msg
    span.End s

/-- The function `CapturePanic`. -/
def CapturePanic (env : Env) (r : Value) (s : State) : State :=
  let span := tracerStart s "panic"
  let s := { s with calls := s.calls ++ [.tracerStart "panic"] }
  let err : GoError :=
    match r with
    | some (.str x) => errorsNew env (pkgFn "CapturePanic") 153 x
    | some (.err x) => x
    | _ => errorsNew env (pkgFn "CapturePanic") 157 "unknown panic"
  let opts : List EventOption := []
  let opts :=
    match err.stackTrace with
    | some st => opts ++ [.withAttributes [("exception.stacktrace", formatStackTrace st)]]
    | none => opts ++ [.withStackTrace true]
  let span := span.RecordError env err opts
  let span := span.SetStatus .Error err.msg
  span.End s

/-- The environment of a call made from line `line` of the package function `fn`:
one more frame on the caller stack. -/
def Env.calledFrom (env : Env) (fn : String) (line : Nat) : Env :=
  { env with callerStack :=
      ({ name := fn, file := env.srcFile, line := line } : Frame) :: env.callerStack }

/-- A handler passed to `Recover`: a host function of the panic value, acting on the
process state.  A handler is a function that returns; one that panics in turn or
never returns is outside the model. -/
abbrev Handler := Value → State → State

/-- The function `Recover`, run as a deferred call.  `inflight` is the panic in
flight when it runs; the result is the new state and the panic still in flight when
it returns. -/
def Recover (env : Env) (handlers : List Handler) (inflight : Value) (s : State) :
    State × Value :=
  let (r, inflight) := goRecover inflight
  if r ≠ none then
    let s := CapturePanic (env.calledFrom (pkgFn "Recover") 175) r s
    if handlers.length > 0 then
      (handlers.foldl (fun s handler => handler r s) s, inflight)
    else (s, inflight)
  else (s, inflight)

/-- The function `Stop`, with the same conventions as `Recover`. -/
def Stop (env : Env) (inflight : Value) (s : State) : State × Value :=
  match s.alertyTraceProvider with
  | none => (s, inflight)
  | some ptr =>
    let (r, inflight) := goRecover inflight
    let s := if r ≠ none then CapturePanic (env.calledFrom (pkgFn "Stop") 108) r s else s
    let s := { s with calls := s.calls ++ [.shutdown ptr] }
    match s.heap[ptr]? with
    | none => (s, inflight)
    | some p =>
      let (p, err) := p.Shutdown env
      let s := { s with heap := s.heap.set ptr p }
      match err with
      | some e =>
        ({ s with log := s.log ++ ["Error shutting down tracer provider: " ++ e ++ "\n"] },
          inflight)
      | none => (s, inflight)

/-! ## Vocabulary of the statements -/

/-- A pipeline is running: the provider at pointer `i` is the one `Start` installed
(registered with OpenTelemetry and kept in `alertyTraceProvider`), its value is
`p`, and it has not been shut down. -/
def Running (s : State) (i : Nat) (p : TracerProvider) : Prop :=
  s.otelTracerProvider = some i ∧ s.alertyTraceProvider = some i ∧
    s.heap[i]? = some p ∧ p.isShutdown = false

instance (s : State) (i : Nat) (p : TracerProvider) : Decidable (Running s i p) := by
  unfold Running
  infer_instance

/-- The state `s` after one tracer start and after exactly the span `sp` was handed
to every span processor of the provider `p` at pointer `i`; nothing else differs. -/
def submit (s : State) (i : Nat) (p : TracerProvider) (sp : SpanData) : State :=
  let q : TracerProvider :=
    { p with processors := p.processors.map (fun bp => { bp with queue := bp.queue ++ [sp] }) }
  { s with heap := s.heap.set i q, calls := s.calls ++ [.tracerStart sp.name] }

/-- The value of the attribute `key` of an event, if it has one. -/
def Event.attr (ev : Event) (key : String) : Option String :=
  (ev.attributes.find? (fun kv => kv.1 = key)).map (fun kv => kv.2)

/-- The span `sp` is an ended span named `name`, with failed status described by
`message`, carrying exactly one event: an exception whose message is `message`. -/
def FailureSpan (sp : SpanData) (name message : String) : Prop :=
  sp.name = name ∧ sp.ended = true ∧
    sp.status = { code := .Error, description := message } ∧
    ∃ ev, sp.events = [ev] ∧ ev.name = "exception" ∧
      ev.attr "exception.message" = some message

/-- The span recorded for the error `e` under the span name `name`. -/
def capturedSpan (env : Env) (name : String) (e : GoError) : SpanData :=
  { name := name,
    events := [{ name := "exception",
                 attributes :=
                   match e.stackTrace with
                   | some st =>
                     [("exception.stacktrace", formatStackTrace st),
                      ("exception.type", e.typeName), ("exception.message", e.msg)]
                   | none =>
                     [("exception.type", e.typeName), ("exception.message", e.msg),
                      ("exception.stacktrace", env.siteStack)] }],
    status := { code := .Error, description := e.msg },
    ended := true }

/-- The error value the type switch of `CapturePanic` builds from the payload. -/
def panicError (env : Env) (r : Value) : GoError :=
  match r with
  | some (.str x) => errorsNew env (pkgFn "CapturePanic") 153 x
  | some (.err x) => x
  | _ => errorsNew env (pkgFn "CapturePanic") 157 "unknown panic"

/-- The provider `p` after the span `sp` joined the queue of each of its processors. -/
def TracerProvider.enqueued (p : TracerProvider) (sp : SpanData) : TracerProvider :=
  { p with processors := p.processors.map (fun bp => { bp with queue := bp.queue ++ [sp] }) }

/-- A handler that writes the panic value it receives, tagged, to the standard
logger. -/
def logHandler (tag : String) : Handler :=
  fun r s =>
    let text :=
      match r with
      | some (.str x) => x
      | some (.err x) => x.msg
      | some (.other ty) => ty
      | none => "<nil>"
    { s with log := s.log ++ [tag ++ ": " ++ text] }

/-- The provider `p` after the span `sp` was submitted and the provider was then shut
down: every processor has handed its queue, `sp` last, to its exporter. -/
def TracerProvider.drainedAfter (p : TracerProvider) (sp : SpanData) : TracerProvider :=
  { p with
    processors := p.processors.map
      (fun bp => { bp with queue := [], exported := bp.exported ++ (bp.queue ++ [sp]) }),
    isShutdown := true }

/-- The lines `Stop` writes to the standard logger for a shutdown result. -/
def shutdownLog (err : Option String) : List String :=
  match err with
  | some e => ["Error shutting down tracer provider: " ++ e ++ "\n"]
  | none => []

/-- The values an event carries under the stack-trace attribute key. -/
def Event.stackTraces (ev : Event) : List String :=
  (ev.attributes.filter (fun kv => kv.1 = "exception.stacktrace")).map (fun kv => kv.2)

/-- Number of invocations of the method `Shutdown` recorded in the state. -/
def shutdownCalls (s : State) : Nat :=
  s.calls.countP (fun c =>
    match c with
    | .shutdown _ => true
    | _ => false)

/-- What `Start env cfg s` does with the raw URL `raw`: it is the only URL parsed;
when it does not parse, `Start` fails before constructing anything; when it parses
to the endpoint `ep`, the network exporter is constructed for `ep` (the only other
constructions are the resource and the debug sink), and a successful `Start`
leaves a running provider whose first processor exports to `ep`. -/
def StartUsesEndpoint (env : Env) (cfg : AlertyServiceConfig) (s : State) (raw : String) :
    Prop :=
  match env.urlParse raw with
  | .error _ =>
    (Start env cfg s).1.calls = s.calls ++ [.urlParse raw] ∧
      (Start env cfg s).2 ≠ none ∧ (Start env cfg s).1.heap = s.heap
  | .ok ep =>
    (∃ rest, (Start env cfg s).1.calls = s.calls ++ [.urlParse raw, .otlpNew ep] ++ rest ∧
        ∀ c ∈ rest, c = Call.resourceNew ∨ c = Call.stdoutNew) ∧
      ((Start env cfg s).2 = none →
        ∃ p, Running (Start env cfg s).1 s.heap.length p ∧
          p.processors.head? = some { exporter := .otlp ep, queue := [], exported := [] })

/-- The call `Stop` made `n` times in a row, with no panic in flight. -/
def stopTimes (env : Env) : Nat → State → State
  | 0, s => s
  | n + 1, s => stopTimes env n (Stop env none s).1

/-! ## Inputs of the worked examples -/

/-- An environment in which every constructor succeeds, URLs starting with a colon
do not parse, and shutting down reports an error. -/
def demoEnv : Env :=
  { urlParse := fun raw =>
      if raw.data.head? = some ':' then .error "missing protocol scheme" else .ok raw,
    otlpNew := fun _ => none,
    resourceNew := fun _ => none,
    stdoutNew := none,
    callerStack := [{ name := "main.main", file := "/app/main.go", line := 26 }],
    siteStack := "goroutine 1 [running]:",
    shutdownError := some "context deadline exceeded",
    srcFile := "/app/pkg/alerty/alerty.go" }

/-- The configuration of the tests of the package, with the default endpoint. -/
def demoCfg : AlertyServiceConfig :=
  { OrganizationID := "", Name := "test", Version := "1.0.0", Environment := "test",
    IngestURL := "", Debug := false }

/-- The provider `Start demoEnv demoCfg` installs. -/
def demoProvider : TracerProvider :=
  { resource := [("service.name", "test"), ("service.version", "1.0.0"),
                 ("deployment.environment", "test"), ("alerty.organizationId", "")],
    processors := [{ exporter := .otlp "https://ingest.alerty.ai", queue := [], exported := [] }],
    isShutdown := false }

/-- The state after `Start demoEnv demoCfg` in a fresh process. -/
def demoRunning : State := (Start demoEnv demoCfg State.init).1

/-- An error without a stack of its own, as built by the standard `errors.New`. -/
def plainError : GoError :=
  { typeName := "*errors.errorString", msg := "test error", stackTrace := none }

/-- An error carrying its own stack. -/
def tracedError : GoError :=
  { typeName := "*errors.fundamental", msg := "boom",
    stackTrace := some [{ name := "main.work", file := "/app/work.go", line := 7 },
                        { name := "main.main", file := "/app/main.go", line := 12 }] }

/-! ## Shared lemmas -/

theorem running_demo : Running demoRunning 0 demoProvider := by
  decide

theorem CaptureError_running (env : Env) (e : GoError) (s : State) (i : Nat)
    (p : TracerProvider) (h : Running s i p) :
    CaptureError env (some e) s = submit s i p (capturedSpan env "error" e) := by
  obtain ⟨hg, -, hp, hl⟩ := h
  cases hst : e.stackTrace <;>
    simp [CaptureError, tracerStart, hg, hp, hl, hst, Span.RecordError, Span.SetStatus,
      Span.End, submit, capturedSpan, eventStackTrace, eventAttributes, Code.toNat,
      BatchSpanProcessor.OnEnd]

theorem CapturePanic_running (env : Env) (r : Value) (s : State) (i : Nat)
    (p : TracerProvider) (h : Running s i p) :
    CapturePanic env r s = submit s i p (capturedSpan env "panic" (panicError env r)) := by
  obtain ⟨hg, -, hp, hl⟩ := h
  cases hst : (panicError env r).stackTrace <;>
    simp [CapturePanic, panicError] at hst ⊢ <;>
    simp [tracerStart, hg, hp, hl, hst, Span.RecordError, Span.SetStatus,
      Span.End, submit, capturedSpan, eventStackTrace, eventAttributes, Code.toNat,
      BatchSpanProcessor.OnEnd]

@[simp] theorem capturedSpan_name (env : Env) (name : String) (e : GoError) :
    (capturedSpan env name e).name = name := rfl

theorem capturedSpan_failure (env : Env) (name : String) (e : GoError) :
    FailureSpan (capturedSpan env name e) name e.msg := by
  refine ⟨rfl, rfl, rfl, _, rfl, rfl, ?_⟩
  cases hst : e.stackTrace <;> simp [Event.attr, List.find?]

theorem submit_heap (s : State) (i : Nat) (p : TracerProvider) (sp : SpanData)
    (hp : s.heap[i]? = some p) :
    (submit s i p sp).heap[i]? = some (p.enqueued sp) := by
  have hi : i < s.heap.length := by
    by_contra hn
    rw [List.getElem?_eq_none (Nat.le_of_not_lt hn)] at hp
    cases hp
  simp [submit, TracerProvider.enqueued, hi]

/-! ## CaptureError -/

/-- C1: with a pipeline running, `CaptureError` of a non-nil error `e` hands exactly
one span to every span processor of the running provider.  The span is named
"error", is ended, has the failed status with description `e.Error()`, and carries
exactly one exception event whose message is `e.Error()`.  Nothing else changes in
the state but the record of the tracer start. -/
theorem CaptureError_submits_one_failed_span (env : Env) (e : GoError) (s : State) (i : Nat)
    (p : TracerProvider) (h : Running s i p) :
    ∃ sp, FailureSpan sp "error" e.msg ∧
      CaptureError env (some e) s = submit s i p sp ∧
      (CaptureError env (some e) s).heap[i]? = some (p.enqueued sp) := by
  refine ⟨capturedSpan env "error" e, capturedSpan_failure env "error" e, ?_, ?_⟩
  · exact CaptureError_running env e s i p h
  · rw [CaptureError_running env e s i p h]
    exact submit_heap s i p _ h.2.2.1

theorem CaptureError_submits_one_failed_span_witness :
    Running demoRunning 0 demoProvider ∧
    ∃ sp, FailureSpan sp "error" "test error" ∧
      CaptureError demoEnv (some plainError) demoRunning = submit demoRunning 0 demoProvider sp ∧
      (CaptureError demoEnv (some plainError) demoRunning).heap[0]? =
        some (demoProvider.enqueued sp) :=
  ⟨running_demo,
    CaptureError_submits_one_failed_span demoEnv plainError demoRunning 0 demoProvider
      running_demo⟩

/-- C2: `CaptureError` of the nil error is a no-op in every state: the state it
returns is the state it was given, so no tracer start is recorded and no span
reaches any processor. -/
theorem CaptureError_nil_noop (env : Env) (s : State) :
    CaptureError env none s = s ∧
      (CaptureError env none s).calls = s.calls ∧
      (CaptureError env none s).heap = s.heap :=
  ⟨rfl, rfl, rfl⟩

/-! ## CapturePanic -/

/-- C3: with a pipeline running, `CapturePanic r` hands exactly one span named
"panic" to every span processor; the span is ended, has the failed status, and the
message of its single exception event (and of its status) is `r` itself for a
string, `r.Error()` for an error value, and "unknown panic" for every other
payload, the nil payload included. -/
theorem CapturePanic_message (env : Env) (s : State) (i : Nat) (p : TracerProvider)
    (h : Running s i p) :
    (∀ x : String, ∃ sp, FailureSpan sp "panic" x ∧
        CapturePanic env (some (.str x)) s = submit s i p sp) ∧
    (∀ e : GoError, ∃ sp, FailureSpan sp "panic" e.msg ∧
        CapturePanic env (some (.err e)) s = submit s i p sp) ∧
    (∀ ty : String, ∃ sp, FailureSpan sp "panic" "unknown panic" ∧
        CapturePanic env (some (.other ty)) s = submit s i p sp) ∧
    (∃ sp, FailureSpan sp "panic" "unknown panic" ∧
        CapturePanic env none s = submit s i p sp) := by
  refine ⟨fun x => ?_, fun e => ?_, fun ty => ?_, ?_⟩
  · exact ⟨_, capturedSpan_failure env "panic" (panicError env (some (.str x))),
      CapturePanic_running env _ s i p h⟩
  · exact ⟨_, capturedSpan_failure env "panic" (panicError env (some (.err e))),
      CapturePanic_running env _ s i p h⟩
  · exact ⟨_, capturedSpan_failure env "panic" (panicError env (some (.other ty))),
      CapturePanic_running env _ s i p h⟩
  · exact ⟨_, capturedSpan_failure env "panic" (panicError env none),
      CapturePanic_running env _ s i p h⟩

theorem CapturePanic_message_witness :
    Running demoRunning 0 demoProvider ∧
    ∃ sp, FailureSpan sp "panic" "local panic" ∧
      CapturePanic demoEnv (some (.str "local panic")) demoRunning =
        submit demoRunning 0 demoProvider sp :=
  ⟨running_demo,
    (CapturePanic_message demoEnv demoRunning 0 demoProvider running_demo).1 "local panic"⟩

/-! ## Recover -/

/-- C4: with a pipeline running and a panic with the non-nil payload `r` in flight,
a deferred `Recover handlers...` first hands exactly one "panic" span for `r` to
the processors, then runs the handlers from first to last, each once and each on
the payload `r`, and returns with no panic in flight. -/
theorem Recover_captures_then_runs_handlers (env : Env) (handlers : List Handler) (r : Dyn)
    (s : State) (i : Nat) (p : TracerProvider) (h : Running s i p) :
    ∃ sp, FailureSpan sp "panic" (panicError env (some r)).msg ∧
      (Recover env handlers (some r) s).1 =
        handlers.foldl (fun st handler => handler (some r) st) (submit s i p sp) ∧
      (Recover env handlers (some r) s).2 = none := by
  refine ⟨capturedSpan (env.calledFrom (pkgFn "Recover") 175) "panic"
      (panicError (env.calledFrom (pkgFn "Recover") 175) (some r)), ?_, ?_, ?_⟩
  · have hf := capturedSpan_failure (env.calledFrom (pkgFn "Recover") 175) "panic"
      (panicError (env.calledFrom (pkgFn "Recover") 175) (some r))
    cases r <;> exact hf
  · rw [← CapturePanic_running _ (some r) s i p h]
    cases handlers <;> simp [Recover, goRecover]
  · cases handlers <;> simp [Recover, goRecover]

theorem Recover_captures_then_runs_handlers_witness :
    Running demoRunning 0 demoProvider ∧
    (∃ sp, FailureSpan sp "panic" "alerty panic handler" ∧
      (Recover demoEnv [logHandler "first", logHandler "second"]
          (some (.str "alerty panic handler")) demoRunning).1 =
        [logHandler "first", logHandler "second"].foldl
          (fun st handler => handler (some (.str "alerty panic handler")) st)
          (submit demoRunning 0 demoProvider sp) ∧
      (Recover demoEnv [logHandler "first", logHandler "second"]
          (some (.str "alerty panic handler")) demoRunning).2 = none) ∧
    (Recover demoEnv [logHandler "first", logHandler "second"]
        (some (.str "alerty panic handler")) demoRunning).1.log =
      ["first: alerty panic handler", "second: alerty panic handler"] :=
  ⟨running_demo,
    Recover_captures_then_runs_handlers demoEnv [logHandler "first", logHandler "second"]
      (.str "alerty panic handler") demoRunning 0 demoProvider running_demo,
    by decide⟩

/-- C5: with no panic in flight, `Recover handlers...` is a no-op for every list of
handlers: the state is returned unchanged (no span, no handler run) and no panic is
in flight afterwards. -/
theorem Recover_without_panic_noop (env : Env) (handlers : List Handler) (s : State) :
    Recover env handlers none s = (s, none) := by
  simp [Recover, goRecover]

/-! ## Stop -/

/-- C7: with a pipeline running and a panic with payload `r` in flight, a deferred
`Stop` first hands one "panic" span for `r` to the processors and then shuts the
provider down, so that every processor has drained its queue, the panic span last,
to its exporter.  `Stop` returns with no panic in flight, and the shutdown error,
if there is one, is written to the logger and goes nowhere else. -/
theorem Stop_during_panic (env : Env) (r : Dyn) (s : State) (i : Nat) (p : TracerProvider)
    (h : Running s i p) :
    ∃ sp, FailureSpan sp "panic" (panicError env (some r)).msg ∧
      (Stop env (some r) s).1 =
        { s with heap := s.heap.set i (p.drainedAfter sp),
                 calls := s.calls ++ [.tracerStart "panic", .shutdown i],
                 log := s.log ++ shutdownLog env.shutdownError } ∧
      (Stop env (some r) s).1.heap[i]? = some (p.drainedAfter sp) ∧
      (Stop env (some r) s).2 = none := by
  obtain ⟨hg, ha, hp, hl⟩ := h
  have hi : i < s.heap.length := by
    by_contra hn
    rw [List.getElem?_eq_none (Nat.le_of_not_lt hn)] at hp
    cases hp
  have hst : (Stop env (some r) s).1 =
      { s with heap := s.heap.set i (p.drainedAfter (capturedSpan
                  (env.calledFrom (pkgFn "Stop") 108) "panic"
                  (panicError (env.calledFrom (pkgFn "Stop") 108) (some r)))),
               calls := s.calls ++ [.tracerStart "panic", .shutdown i],
               log := s.log ++ shutdownLog env.shutdownError } := by
    cases he : env.shutdownError <;>
      simp [Stop, ha, goRecover, CapturePanic_running _ (some r) s i p ⟨hg, ha, hp, hl⟩,
        submit, hi, TracerProvider.Shutdown, hl, he, shutdownLog,
        TracerProvider.drainedAfter, BatchSpanProcessor.Shutdown, Function.comp_def]
  refine ⟨_, ?_, hst, ?_, ?_⟩
  · have hf := capturedSpan_failure (env.calledFrom (pkgFn "Stop") 108) "panic"
      (panicError (env.calledFrom (pkgFn "Stop") 108) (some r))
    cases r <;> exact hf
  · rw [hst]
    simp [hi]
  · cases he : env.shutdownError <;>
      simp [Stop, ha, goRecover, CapturePanic_running _ (some r) s i p ⟨hg, ha, hp, hl⟩,
        submit, hi, TracerProvider.Shutdown, hl, he]

theorem Stop_during_panic_witness :
    Running demoRunning 0 demoProvider ∧
    ∃ sp, FailureSpan sp "panic" "local panic" ∧
      (Stop demoEnv (some (.str "local panic")) demoRunning).1 =
        { demoRunning with
          heap := demoRunning.heap.set 0 (demoProvider.drainedAfter sp),
          calls := demoRunning.calls ++ [.tracerStart "panic", .shutdown 0],
          log := demoRunning.log ++ shutdownLog (some "context deadline exceeded") } ∧
      (Stop demoEnv (some (.str "local panic")) demoRunning).1.heap[0]? =
        some (demoProvider.drainedAfter sp) ∧
      (Stop demoEnv (some (.str "local panic")) demoRunning).2 = none :=
  ⟨running_demo,
    Stop_during_panic demoEnv (.str "local panic") demoRunning 0 demoProvider running_demo⟩

/-- C6, as stated, fails: after `Start`, the first `Stop` leaves one invocation of
`Shutdown` on record and the second `Stop` adds another one, so `Start; Stop; Stop`
invokes the shutdown of the pipeline twice. -/
theorem Stop_twice_invokes_shutdown_twice :
    shutdownCalls (Stop demoEnv none demoRunning).1 = 1 ∧
      shutdownCalls (Stop demoEnv none (Stop demoEnv none demoRunning).1).1 = 2 := by
  decide

theorem Stop_after_shutdown (env : Env) (s : State) (i : Nat) (p : TracerProvider)
    (ha : s.alertyTraceProvider = some i) (hp : s.heap[i]? = some p)
    (hd : p.isShutdown = true) :
    Stop env none s = ({ s with calls := s.calls ++ [.shutdown i] }, none) := by
  have hi : i < s.heap.length := by
    by_contra hn
    rw [List.getElem?_eq_none (Nat.le_of_not_lt hn)] at hp
    cases hp
  have hset : s.heap.set i p = s.heap := by
    apply List.ext_getElem?
    intro j
    by_cases hj : i = j
    · subst hj
      simp [hi, hp]
    · simp [List.getElem?_set, hj]
  simp [Stop, ha, goRecover, hp, TracerProvider.Shutdown, hd, hset]

theorem stopTimes_after_shutdown (env : Env) (i : Nat) (p : TracerProvider) (n : Nat) :
    ∀ s : State, s.alertyTraceProvider = some i → s.heap[i]? = some p →
      p.isShutdown = true →
      stopTimes env n s = { s with calls := s.calls ++ List.replicate n (.shutdown i) } := by
  induction n with
  | zero => intro s _ _ _; simp [stopTimes]
  | succ n ih =>
    intro s ha hp hd
    rw [stopTimes, Stop_after_shutdown env s i p ha hp hd]
    show stopTimes env n { s with calls := s.calls ++ [.shutdown i] } = _
    rw [ih { s with calls := s.calls ++ [.shutdown i] } ha hp hd]
    simp [List.replicate_succ]

/-- C6, amended: `Stop` has no guard against repetition.  From a running session
and with no panic in flight, every `Stop` after the first invokes `Shutdown` on the
same provider once more (`n + 1` calls to `Stop` leave `n + 1` invocations on
record); each of these later invocations finds the provider shut down, so it
drains nothing and logs nothing, and `Stop` returns normally.  The state after
`n + 1` calls is the state after the first call with the `n` extra invocations on
record: same providers, same exported spans, same log. -/
theorem Stop_repeated (env : Env) (s : State) (i : Nat) (p : TracerProvider) (n : Nat)
    (h : Running s i p) :
    stopTimes env (n + 1) s =
        { (Stop env none s).1 with
          calls := (Stop env none s).1.calls ++ List.replicate n (.shutdown i) } ∧
      shutdownCalls (stopTimes env (n + 1) s) = shutdownCalls s + (n + 1) ∧
      (stopTimes env (n + 1) s).heap = (Stop env none s).1.heap ∧
      (stopTimes env (n + 1) s).log = (Stop env none s).1.log ∧
      (Stop env none (stopTimes env n (Stop env none s).1)).2 = none := by
  obtain ⟨hg, ha, hp, hl⟩ := h
  have hi : i < s.heap.length := by
    by_contra hn
    rw [List.getElem?_eq_none (Nat.le_of_not_lt hn)] at hp
    cases hp
  have h1 : (Stop env none s).1 =
      { s with heap := s.heap.set i
                 { p with processors := p.processors.map BatchSpanProcessor.Shutdown,
                          isShutdown := true },
               calls := s.calls ++ [.shutdown i],
               log := s.log ++ shutdownLog env.shutdownError } := by
    cases he : env.shutdownError <;>
      simp [Stop, ha, goRecover, hp, TracerProvider.Shutdown, hl, he, shutdownLog]
  have hn : stopTimes env (n + 1) s =
      { (Stop env none s).1 with
        calls := (Stop env none s).1.calls ++ List.replicate n (.shutdown i) } := by
    rw [stopTimes]
    apply stopTimes_after_shutdown env i
      { p with processors := p.processors.map BatchSpanProcessor.Shutdown, isShutdown := true }
    · rw [h1]; exact ha
    · rw [h1]; simp [hi]
    · rfl
  refine ⟨hn, ?_, ?_, ?_, ?_⟩
  · rw [hn, h1]
    simp [shutdownCalls, List.countP_append, List.countP_replicate]
  · rw [hn]
  · rw [hn]
  · have hs := stopTimes_after_shutdown env i
      { p with processors := p.processors.map BatchSpanProcessor.Shutdown, isShutdown := true }
      n (Stop env none s).1 (by rw [h1]; exact ha) (by rw [h1]; simp [hi]) rfl
    rw [hs, Stop_after_shutdown env _ i
      { p with processors := p.processors.map BatchSpanProcessor.Shutdown, isShutdown := true }
      (by rw [h1]; exact ha) (by rw [h1]; simp [hi]) rfl]

theorem Stop_repeated_witness :
    Running demoRunning 0 demoProvider ∧
    stopTimes demoEnv 2 demoRunning =
        { (Stop demoEnv none demoRunning).1 with
          calls := (Stop demoEnv none demoRunning).1.calls ++ List.replicate 1 (.shutdown 0) } ∧
      shutdownCalls (stopTimes demoEnv 2 demoRunning) = shutdownCalls demoRunning + 2 ∧
      (stopTimes demoEnv 2 demoRunning).heap = (Stop demoEnv none demoRunning).1.heap ∧
      (stopTimes demoEnv 2 demoRunning).log = (Stop demoEnv none demoRunning).1.log ∧
      (Stop demoEnv none (stopTimes demoEnv 1 (Stop demoEnv none demoRunning).1)).2 = none :=
  ⟨running_demo, Stop_repeated demoEnv demoRunning 0 demoProvider 1 running_demo⟩

/-! ## Stack capture policy -/

theorem capturedSpan_stackTraces (env : Env) (name : String) (e : GoError) :
    ∃ ev, (capturedSpan env name e).events = [ev] ∧
      ev.stackTraces =
        match e.stackTrace with
        | some st => [formatStackTrace st]
        | none => [env.siteStack] := by
  refine ⟨_, rfl, ?_⟩
  cases hst : e.stackTrace <;> simp [Event.stackTraces, List.filter]

/-- C8: stack capture policy of `CaptureError`, with a pipeline running.  The single
event of the submitted span carries exactly one stack-trace attribute.  For an
error that exposes its own stack, the value is that stack formatted frame by frame
in order, and the outcome does not depend on the environment, so no stack is taken
at the capture call.  For an error that exposes none, the value is the stack the
SDK records at the capture call. -/
theorem CaptureError_stack_policy (env : Env) (e : GoError) (s : State) (i : Nat)
    (p : TracerProvider) (h : Running s i p) :
    ∃ sp ev, CaptureError env (some e) s = submit s i p sp ∧ sp.events = [ev] ∧
      match e.stackTrace with
      | some st =>
        ev.stackTraces = [formatStackTrace st] ∧
          formatStackTrace st = String.join (st.map (fun f =>
            "\n" ++ (f.name ++ "\n\t" ++ f.file ++ ":" ++ toString f.line))) ∧
          ∀ env2 : Env, CaptureError env2 (some e) s = CaptureError env (some e) s
      | none => ev.stackTraces = [env.siteStack] := by
  obtain ⟨ev, hev, hst⟩ := capturedSpan_stackTraces env "error" e
  refine ⟨_, ev, CaptureError_running env e s i p h, hev, ?_⟩
  cases hs : e.stackTrace with
  | none => simpa [hs] using hst
  | some st =>
    refine ⟨by simpa [hs] using hst, rfl, fun env2 => ?_⟩
    rw [CaptureError_running env2 e s i p h, CaptureError_running env e s i p h]
    simp [capturedSpan, hs]

theorem CaptureError_stack_policy_witness :
    Running demoRunning 0 demoProvider ∧
    ∃ sp ev, CaptureError demoEnv (some tracedError) demoRunning =
        submit demoRunning 0 demoProvider sp ∧ sp.events = [ev] ∧
      match tracedError.stackTrace with
      | some st =>
        ev.stackTraces = [formatStackTrace st] ∧
          formatStackTrace st = String.join (st.map (fun f =>
            "\n" ++ (f.name ++ "\n\t" ++ f.file ++ ":" ++ toString f.line))) ∧
          ∀ env2 : Env, CaptureError env2 (some tracedError) demoRunning =
            CaptureError demoEnv (some tracedError) demoRunning
      | none => ev.stackTraces = [demoEnv.siteStack] :=
  ⟨running_demo,
    CaptureError_stack_policy demoEnv tracedError demoRunning 0 demoProvider running_demo⟩

/-- C10: stack source in `CapturePanic`, with a pipeline running.  For a string
payload and for every payload that is neither a string nor an error (nil included),
the error is built by `errors.New` inside `CapturePanic` and exposes a stack, so the
stack-trace attribute is the formatted stack of that construction (line 153, resp.
157, of `CapturePanic`, then the callers) and the outcome does not depend on the
stack at the capture call.  The stack at the capture call is recorded only for an
error payload that exposes no stack; an error payload that exposes one keeps it. -/
theorem CapturePanic_stack_source (env : Env) (r : Value) (s : State) (i : Nat)
    (p : TracerProvider) (h : Running s i p) :
    ∃ sp ev, CapturePanic env r s = submit s i p sp ∧ sp.events = [ev] ∧
      match r with
      | some (.str _) =>
        ev.stackTraces = [formatStackTrace (callers env (pkgFn "CapturePanic") 153)] ∧
          ∀ site : String, CapturePanic { env with siteStack := site } r s = CapturePanic env r s
      | some (.err e) =>
        (match e.stackTrace with
          | some st => ev.stackTraces = [formatStackTrace st]
          | none => ev.stackTraces = [env.siteStack])
      | _ =>
        ev.stackTraces = [formatStackTrace (callers env (pkgFn "CapturePanic") 157)] ∧
          ∀ site : String, CapturePanic { env with siteStack := site } r s = CapturePanic env r s := by
  obtain ⟨ev, hev, hst⟩ := capturedSpan_stackTraces env "panic" (panicError env r)
  refine ⟨_, ev, CapturePanic_running env r s i p h, hev, ?_⟩
  have hind : ∀ site : String, (∃ st, (panicError env r).stackTrace = some st) →
      (panicError { env with siteStack := site } r) = panicError env r →
      CapturePanic { env with siteStack := site } r s = CapturePanic env r s := by
    intro site ⟨st, hs⟩ hpe
    rw [CapturePanic_running _ r s i p h, CapturePanic_running env r s i p h, hpe]
    simp [capturedSpan, hs]
  rcases r with _ | x | e | ty
  · exact ⟨hst, fun site => hind site ⟨_, rfl⟩ rfl⟩
  · exact ⟨hst, fun site => hind site ⟨_, rfl⟩ rfl⟩
  · cases hs : e.stackTrace <;> simpa [panicError, hs] using hst
  · exact ⟨hst, fun site => hind site ⟨_, rfl⟩ rfl⟩

theorem CapturePanic_stack_source_witness :
    Running demoRunning 0 demoProvider ∧
    ∃ sp ev, CapturePanic demoEnv (some (.other "int")) demoRunning =
        submit demoRunning 0 demoProvider sp ∧ sp.events = [ev] ∧
      ev.stackTraces = [formatStackTrace (callers demoEnv (pkgFn "CapturePanic") 157)] ∧
      ∀ site : String,
        CapturePanic { demoEnv with siteStack := site } (some (.other "int")) demoRunning =
          CapturePanic demoEnv (some (.other "int")) demoRunning :=
  ⟨running_demo,
    CapturePanic_stack_source demoEnv (some (.other "int")) demoRunning 0 demoProvider
      running_demo⟩

/-! ## Start -/

theorem Start_uses_chosen (env : Env) (cfg : AlertyServiceConfig) (s : State) :
    StartUsesEndpoint env cfg s
      (if cfg.IngestURL = "" then DefaultAlertyIngestURL else cfg.IngestURL) := by
  unfold StartUsesEndpoint
  cases hu : env.urlParse (if cfg.IngestURL = "" then DefaultAlertyIngestURL else cfg.IngestURL) with
  | error e => simp [Start, hu]
  | ok ep =>
    cases ho : env.otlpNew ep with
    | some e => simp [Start, hu, ho]
    | none =>
      cases hr : env.resourceNew
          [("service.name", cfg.Name), ("service.version", cfg.Version),
            ("deployment.environment", cfg.Environment),
            (AlertyOrganizationIDKey, cfg.OrganizationID)] with
      | some e => simp [Start, hu, ho, hr]
      | none =>
        cases hd : cfg.Debug with
        | false =>
          simp [Start, hu, ho, hr, hd, Running]
          exact ⟨_, ⟨rfl, rfl⟩, rfl⟩
        | true =>
          cases hs : env.stdoutNew with
          | some e => simp [Start, hu, ho, hr, hd, hs]
          | none =>
            simp [Start, hu, ho, hr, hd, hs, Running]
            exact ⟨_, ⟨rfl, rfl⟩, rfl⟩

/-- C9: `Start` defaults the ingest endpoint.  When `IngestURL` is empty, the URL
`Start` parses is `DefaultAlertyIngestURL` and the network exporter is constructed
for the endpoint parsed from it.  When `IngestURL` is not empty, the URL parsed is
`IngestURL` itself, the network exporter is constructed for the endpoint parsed from
it, and the default is neither parsed nor passed on. -/
theorem Start_defaults_ingest_endpoint (env : Env) (cfg : AlertyServiceConfig) (s : State) :
    (cfg.IngestURL = "" → StartUsesEndpoint env cfg s DefaultAlertyIngestURL) ∧
      (cfg.IngestURL ≠ "" → StartUsesEndpoint env cfg s cfg.IngestURL) := by
  have h := Start_uses_chosen env cfg s
  constructor
  · intro he
    simpa [he] using h
  · intro hne
    simpa [hne] using h

end Alerty
